import Mathlib

/-!
Verification of the multi-series Dataset Store of the GRAPH charting
application.  The store is realised by `PlottingModel` in `src/abc.py`
(the pure Model class); the older monolithic variant used for the
table-sort gesture lives in `src/v3.4.2.py` (`PlottingApp`).  This file
gives a shallow embedding of both and proves/refutes the specified
properties.

Cell values in the application are Python numbers or fallback string
labels; they are embedded as `Val`.  Machine floats never matter for
the claims under test (only `+ 1` on a numeric x), so numerics are
embedded as `Int`.
-/

/-- A cell value of the store: numeric, or an opaque string label
(`isinstance(v, (int, float))` distinguishes the two in the source). -/
inductive Val where
  | num (n : Int)
  | str (s : String)
deriving DecidableEq

/-- One series of the store, mirroring the dataset dict built in
`src/abc.py` (`name`, `x`, `y`, `colors`, `primary_color`,
`line_segment_colors`). -/
structure Dataset where
  name : String
  x : List Val
  y : List Val
  colors : List String
  primary_color : String
  line_segment_colors : List String
deriving DecidableEq

/-- Default of `settings['plot_color_hex']` in `_get_default_settings`. -/
def defaultPlotColor : String := "#1f77b4"

/-- The state of `PlottingModel` (src/abc.py).  Of the settings dict only
`plot_color_hex` is embedded: it is the only settings key the data-model
operations read or write.  `excel_data`, `data_source` and
`annotation_positions` are not consulted by any claimed operation once
file columns are resolved, so they are omitted. -/
structure PlottingModel where
  datasets : List Dataset
  original_datasets : List Dataset
  plot_color_hex : String
deriving DecidableEq

/-- The state right after `PlottingModel.__init__`. -/
def initialModel : PlottingModel :=
  { datasets := [], original_datasets := [], plot_color_hex := defaultPlotColor }

/-- `PlottingModel.update_data_from_file` (src/abc.py lines 100-124),
with the pandas column lookups already resolved: `x_data` is
`excel_data[x_col].tolist()` and each `(name, ys)` pair of `yCols` is a
selected y column with its values.  An empty `x_col` or empty selection
takes the early-return branch that only empties `datasets`. -/
def update_data_from_file (m : PlottingModel) (x_col : String)
    (x_data : List Val) (yCols : List (String × List Val)) : PlottingModel :=
  if x_col = "" ∨ yCols = [] then
    { m with datasets := [] }
  else
    let ds := yCols.map (fun yc =>
      { name := yc.1, x := x_data, y := yc.2,
        colors := List.replicate x_data.length m.plot_color_hex,
        primary_color := m.plot_color_hex,
        line_segment_colors :=
          List.replicate (x_data.length - 1) m.plot_color_hex : Dataset })
    { m with datasets := ds, original_datasets := ds }

/-- One y column of a grid snapshot (`table_data['y_cols'][i]`). -/
structure YColData where
  name : String
  y : List Val
  colors : List String
deriving DecidableEq

/-- A full grid snapshot (`table_data` in the source): the shared x
column plus one `(name, y, colors)` record per series column pair. -/
structure TableData where
  x : List Val
  y_cols : List YColData
deriving DecidableEq

/-- `PlottingModel.update_data_from_table` (src/abc.py lines 126-145):
rebuilds every series from the grid snapshot; `primary_color` becomes
`colors[0]` of the snapshot column (default plot color when the column
is empty) and `line_segment_colors` becomes `len(x)-1` copies of that
first color (`[c]*(n-1)` of a negative count is `[]`, matched by
truncated subtraction). -/
def update_data_from_table (m : PlottingModel) (t : TableData) : PlottingModel :=
  let new_datasets := t.y_cols.map (fun yc =>
    { name := yc.name, x := t.x, y := yc.y, colors := yc.colors,
      primary_color := match yc.colors with
        | [] => m.plot_color_hex
        | c :: _ => c,
      line_segment_colors := match yc.colors with
        | [] => []
        | c :: _ => List.replicate (t.x.length - 1) c : Dataset })
  { m with datasets := new_datasets, original_datasets := new_datasets }

/-- The per-series body of `add_row`'s else-branch: `last_x = x[-1] if x
else 0`, `new_x = last_x + 1 if isinstance(last_x, (int, float)) else 0`,
then in-place appends, the segment color only when the new length
exceeds 1. -/
def add_row_ds (ds : Dataset) : Dataset :=
  let last_x : Val := match ds.x.getLast? with
    | some v => v
    | none => .num 0
  let new_x : Val := match last_x with
    | .num n => .num (n + 1)
    | .str _ => .num 0
  let x' := ds.x ++ [new_x]
  { ds with
    x := x',
    y := ds.y ++ [.num 0],
    colors := ds.colors ++ [ds.primary_color],
    line_segment_colors :=
      if x'.length > 1 then ds.line_segment_colors ++ [ds.primary_color]
      else ds.line_segment_colors }

/-- `PlottingModel.add_row` (src/abc.py lines 147-166). -/
def add_row (m : PlottingModel) : PlottingModel :=
  let ds' :=
    if m.datasets = [] then
      [{ name := "數據1", x := [.num 0], y := [.num 0],
         colors := [m.plot_color_hex], primary_color := m.plot_color_hex,
         line_segment_colors := [] : Dataset }]
    else
      m.datasets.map add_row_ds
  { m with datasets := ds', original_datasets := ds' }

/-- Python's `sorted(rows, reverse=True)` on the removal indices:
insertion sort into descending order. -/
def insertDesc (a : Nat) : List Nat → List Nat
  | [] => [a]
  | b :: l => if b ≤ a then a :: b :: l else b :: insertDesc a l

/-- Descending sort of the row-index list. -/
def sortDesc (l : List Nat) : List Nat := l.foldr insertDesc []

/-- The per-series body of one `remove_rows` loop iteration: `del` on
`x`, `y`, `colors` at `row`, and on `line_segment_colors` only when
`row` is inside its (possibly shorter) range. -/
def remove_row_ds (row : Nat) (ds : Dataset) : Dataset :=
  { ds with
    x := ds.x.eraseIdx row,
    y := ds.y.eraseIdx row,
    colors := ds.colors.eraseIdx row,
    line_segment_colors :=
      if row < ds.line_segment_colors.length then
        ds.line_segment_colors.eraseIdx row
      else ds.line_segment_colors }

/-- One iteration of the `remove_rows` loop: the guard is
`self.datasets and 0 <= row < len(self.datasets[0]['x'])`. -/
def remove_rows_step (dss : List Dataset) (row : Nat) : List Dataset :=
  match dss with
  | [] => dss
  | d0 :: _ => if row < d0.x.length then dss.map (remove_row_ds row) else dss

/-- `PlottingModel.remove_rows` (src/abc.py lines 168-179). -/
def remove_rows (m : PlottingModel) (rows : List Nat) : PlottingModel :=
  let ds' := (sortDesc rows).foldl remove_rows_step m.datasets
  { m with datasets := ds', original_datasets := ds' }

/-- Python `list.insert i v`: clamps `i` to the length (append when past
the end), never raises. -/
def insertAt (l : List α) (i : Nat) (v : α) : List α :=
  l.take i ++ v :: l.drop i

/-- Python `l.insert(to, l.pop(from))`; the `none` branch is unreachable
under `move_row`'s bound guard (the raising behaviour is modelled by
`move_row?` below). -/
def popInsert (l : List α) (fromIdx toIdx : Nat) : List α :=
  match l.get? fromIdx with
  | none => l
  | some v => insertAt (l.eraseIdx fromIdx) toIdx v

/-- `PlottingModel.move_row` (src/abc.py lines 181-190). -/
def move_row (m : PlottingModel) (fromIdx toIdx : Nat) : PlottingModel :=
  match m.datasets with
  | [] => m
  | d0 :: _ =>
    if fromIdx < d0.x.length ∧ toIdx < d0.x.length then
      let ds' := m.datasets.map (fun ds =>
        { ds with
          x := popInsert ds.x fromIdx toIdx,
          y := popInsert ds.y fromIdx toIdx,
          colors := popInsert ds.colors fromIdx toIdx })
      { m with datasets := ds', original_datasets := ds' }
    else m

/-- `PlottingModel.clear_all` (src/abc.py lines 192-201): settings are
reset to defaults, so `plot_color_hex` returns to its default. -/
def clear_all (_m : PlottingModel) : PlottingModel := initialModel

/-- The `artist_type` discriminator passed to `update_point_color`
(`'line'`, `'scatter'`, `'bar'`).  The spec's `target='segment'` is
`'line'`; `target='point'` is `'scatter'`/`'bar'`. -/
inductive ArtistType where
  | line
  | scatter
  | bar
deriving DecidableEq

/-- In-place update of the `i`-th list element (`l[i] = f(l[i])` on a
Python list); unchanged when `i` is past the end. -/
def setIdx (l : List α) (i : Nat) (f : α → α) : List α :=
  match l.get? i with
  | none => l
  | some v => l.set i (f v)

/-- `PlottingModel.update_point_color` (src/abc.py lines 218-226).
Indices arrive from UI hit-testing and are natural numbers. -/
def update_point_color (m : PlottingModel) (ds_index pt_index : Nat)
    (color : String) (artist : ArtistType) : PlottingModel :=
  if ds_index < m.datasets.length then
    match artist with
    | .line =>
      { m with datasets := setIdx m.datasets ds_index (fun ds =>
          if 0 < pt_index ∧ pt_index ≤ ds.line_segment_colors.length then
            { ds with line_segment_colors :=
                ds.line_segment_colors.set (pt_index - 1) color }
          else ds) }
    | _ =>
      { m with datasets := setIdx m.datasets ds_index (fun ds =>
          if pt_index < ds.colors.length then
            { ds with colors := ds.colors.set pt_index color }
          else ds) }
  else m

/-- `PlottingModel.update_all_colors` (src/abc.py lines 228-236): also
overwrites `settings['plot_color_hex']`; `original_datasets` is not
re-synced by this operation. -/
def update_all_colors (m : PlottingModel) (new_color : String) : PlottingModel :=
  { m with
    plot_color_hex := new_color,
    datasets := m.datasets.map (fun ds =>
      { ds with
        primary_color := new_color,
        colors := List.replicate ds.colors.length new_color,
        line_segment_colors :=
          List.replicate ds.line_segment_colors.length new_color }) }

/-- Projection of the store into a full grid snapshot: models
`PlottingApp.update_table` (src/v3.4.2.py lines 1005-1031) writing the
grid (x column from series 0, one `(Y, color)` column pair per series)
composed with the snapshot read-back, with the cell stringification
abstracted away (values round-trip unchanged). -/
def projectToTable (dss : List Dataset) : TableData :=
  { x := match dss with
      | [] => []
      | d0 :: _ => d0.x,
    y_cols := dss.map (fun ds =>
      { name := ds.name, y := ds.y, colors := ds.colors : YColData }) }

/-- Python `del l[row]` raises `IndexError` when `row` is out of range;
`none` models the raise. -/
def eraseIdx? (l : List α) (i : Nat) : Option (List α) :=
  if i < l.length then some (l.eraseIdx i) else none

/-- Python `l.pop(i)`: the removed element and the rest, or a raise. -/
def pop? (l : List α) (i : Nat) : Option (α × List α) :=
  match l.get? i with
  | some v => some (v, l.eraseIdx i)
  | none => none

/-- Per-series body of a `remove_rows` iteration with every `del`'s
raising behaviour made explicit (the `line_segment_colors` delete is
guarded in the source and cannot raise). -/
def remove_row_ds? (row : Nat) (ds : Dataset) : Option Dataset := do
  let x ← eraseIdx? ds.x row
  let y ← eraseIdx? ds.y row
  let c ← eraseIdx? ds.colors row
  pure { ds with
         x := x, y := y, colors := c,
         line_segment_colors :=
           if row < ds.line_segment_colors.length then
             ds.line_segment_colors.eraseIdx row
           else ds.line_segment_colors }

/-- A loop over the series list that stops at the first raising
iteration (Python's exception propagation out of the `for` loop). -/
def mapOpt (f : α → Option β) : List α → Option (List β)
  | [] => some []
  | a :: l =>
    match f a with
    | none => none
    | some b =>
      match mapOpt f l with
      | none => none
      | some bs => some (b :: bs)

/-- A fold that stops at the first raising iteration. -/
def foldOpt (f : β → α → Option β) : β → List α → Option β
  | b, [] => some b
  | b, a :: l =>
    match f b a with
    | none => none
    | some b' => foldOpt f b' l

/-- One `remove_rows` iteration with raising semantics. -/
def remove_rows_step? (dss : List Dataset) (row : Nat) : Option (List Dataset) :=
  match dss with
  | [] => some dss
  | d0 :: _ =>
    if row < d0.x.length then mapOpt (remove_row_ds? row) dss else some dss

/-- `remove_rows` with raising semantics: `none` iff some iteration's
`del` raises (only possible when some series is shorter than series 0). -/
def remove_rows? (m : PlottingModel) (rows : List Nat) : Option PlottingModel :=
  match foldOpt remove_rows_step? m.datasets (sortDesc rows) with
  | none => none
  | some ds' => some { m with datasets := ds', original_datasets := ds' }

/-- Per-series body of `move_row` with raising semantics. -/
def move_row_ds? (fromIdx toIdx : Nat) (ds : Dataset) : Option Dataset := do
  let px ← pop? ds.x fromIdx
  let py ← pop? ds.y fromIdx
  let pc ← pop? ds.colors fromIdx
  pure { ds with
         x := insertAt px.2 toIdx px.1,
         y := insertAt py.2 toIdx py.1,
         colors := insertAt pc.2 toIdx pc.1 }

/-- `move_row` with raising semantics: `none` iff some series' `pop`
raises (`insert` never raises — it clamps). -/
def move_row? (m : PlottingModel) (fromIdx toIdx : Nat) : Option PlottingModel :=
  match m.datasets with
  | [] => some m
  | d0 :: _ =>
    if fromIdx < d0.x.length ∧ toIdx < d0.x.length then
      match mapOpt (move_row_ds? fromIdx toIdx) m.datasets with
      | none => none
      | some ds' => some { m with datasets := ds', original_datasets := ds' }
    else some m

namespace V342

/-- One series dict of `PlottingApp` (src/v3.4.2.py).  Such dicts may
lack the `line_segment_colors` key (the table rebuild creates fresh
series without it), so that field is an `Option`; the per-series style
keys (`marker`, `border_color`, `linewidth`, `linestyle`) play no role
in any claim and are omitted. -/
structure Dataset where
  name : String
  x : List Val
  y : List Val
  colors : List String
  primary_color : String
  line_segment_colors : Option (List String)
deriving DecidableEq

/-- The slice of `PlottingApp` state the sort/table claims touch:
`datasets`, `original_datasets`, `last_sort_info` and the two default
color settings (`line_color_hex`, `point_color_hex`). -/
structure AppState where
  datasets : List Dataset
  original_datasets : List Dataset
  last_sort_col : Int
  last_sort_count : Nat
  line_color_hex : String
  point_color_hex : String
deriving DecidableEq

/-- `PlottingApp.__init__` defaults (src/v3.4.2.py lines 149-169). -/
def initialApp : AppState :=
  { datasets := [], original_datasets := [],
    last_sort_col := -1, last_sort_count := 0,
    line_color_hex := "#1f77b4", point_color_hex := "#ff7f0e" }

/-- The body of `PlottingApp.update_data_from_table`'s rebuild loop
(src/v3.4.2.py lines 1244-1258), indexed as by `enumerate`: for a column
index with an existing series, `old_ds.copy()` then `update` keeps the
old `primary_color` and `line_segment_colors`; past the end `old_ds` is
`{}`, `primary_color` defaults to `line_color_hex` and the
`line_segment_colors` key is absent.  `x` is `x_data[:len(y_data)]`. -/
def buildCol (st : AppState) (t : TableData) (i : Nat) (yc : YColData) :
    Dataset :=
  match st.datasets.get? i with
  | some old =>
    { old with
      name := yc.name, x := t.x.take yc.y.length,
      y := yc.y, colors := yc.colors,
      primary_color := old.primary_color }
  | none =>
    { name := yc.name, x := t.x.take yc.y.length,
      y := yc.y, colors := yc.colors,
      primary_color := st.line_color_hex,
      line_segment_colors := none }

/-- The rebuild loop itself, walking the snapshot columns with their
`enumerate` index. -/
def rebuildFromTable (st : AppState) (t : TableData) :
    Nat → List YColData → List Dataset
  | _, [] => []
  | i, yc :: rest => buildCol st t i yc :: rebuildFromTable st t (i + 1) rest

/-- `PlottingApp.update_data_from_table` (src/v3.4.2.py lines 1235-1263),
called past its `is_updating_table` suppress guard, on a pre-parsed grid
snapshot. -/
def update_data_from_table (st : AppState) (t : TableData) : AppState :=
  let new_datasets := rebuildFromTable st t 0 t.y_cols
  { st with datasets := new_datasets, original_datasets := new_datasets }

/-- `PlottingApp.on_table_sort` (src/v3.4.2.py lines 1265-1273).
`sorted_table` is the grid content at handler time — the rows as the
table widget just reordered them; it is read (via
`update_data_from_table`) only on the first and second consecutive
clicks.  On the third, `datasets` is restored from `original_datasets`
and the sort column is reset to `-1` (the count keeps its value). -/
def on_table_sort (st : AppState) (column : Int) (sorted_table : TableData) :
    AppState :=
  let info : Int × Nat :=
    if st.last_sort_col = column then (st.last_sort_col, st.last_sort_count + 1)
    else (column, 1)
  if info.2 ≥ 3 then
    { st with
      datasets := st.original_datasets,
      last_sort_col := -1, last_sort_count := info.2 }
  else
    update_data_from_table
      { st with last_sort_col := info.1, last_sort_count := info.2 }
      sorted_table

end V342

/-- The shared row count of the store: `len(self.datasets[0]['x'])`,
`0` on an empty store (the quantity every bound check in the source
compares against). -/
def headRowCount : List Dataset → Nat
  | [] => 0
  | d0 :: _ => d0.x.length

/-- All series have `x`, `y` and `colors` of length `n` — the shape the
grid adapter guarantees (it reads every column for the same
`rowCount`). -/
def AlignedTo (n : Nat) (dss : List Dataset) : Prop :=
  ∀ ds ∈ dss, ds.x.length = n ∧ ds.y.length = n ∧ ds.colors.length = n

instance (n : Nat) (dss : List Dataset) : Decidable (AlignedTo n dss) :=
  inferInstanceAs (Decidable (∀ ds ∈ dss, _ ∧ _ ∧ _))

/-- `len(self.datasets[0]['x'])` of a model (`0` when empty). -/
def rowCount (m : PlottingModel) : Nat := headRowCount m.datasets

/-- Every series of the store has `x`, `y`, `colors` of the shared row
count. -/
def RowsAligned (m : PlottingModel) : Prop := AlignedTo (rowCount m) m.datasets

instance (m : PlottingModel) : Decidable (RowsAligned m) :=
  inferInstanceAs (Decidable (AlignedTo (rowCount m) m.datasets))

/-- A grid snapshot as the table widget actually produces it: every
column read for exactly `rowCount` rows, so every `y` and `colors`
column has the length of the `x` column. -/
def WFTable (t : TableData) : Prop :=
  ∀ yc ∈ t.y_cols, yc.y.length = t.x.length ∧ yc.colors.length = t.x.length

instance (t : TableData) : Decidable (WFTable t) :=
  inferInstanceAs (Decidable (∀ yc ∈ t.y_cols, _ ∧ _))

/-- Resolved file columns as pandas produces them: every column of a
`DataFrame` has the frame's row count, so every selected y column has
the length of the x column. -/
def WFCols (x_data : List Val) (yCols : List (String × List Val)) : Prop :=
  ∀ p ∈ yCols, p.2.length = x_data.length

instance (x_data : List Val) (yCols : List (String × List Val)) :
    Decidable (WFCols x_data yCols) :=
  inferInstanceAs (Decidable (∀ p ∈ yCols, _))

/-- The store states reachable from the initial model through the
store's operations, with grid snapshots and file columns shaped as
their producers (the table widget, pandas) always shape them and
arbitrary indices, colors and values everywhere else. -/
inductive Reachable : PlottingModel → Prop where
  | init : Reachable initialModel
  | addRow {m} : Reachable m → Reachable (add_row m)
  | removeRows {m} (rows : List Nat) : Reachable m → Reachable (remove_rows m rows)
  | moveRow {m} (i j : Nat) : Reachable m → Reachable (move_row m i j)
  | fromGrid {m} (t : TableData) : Reachable m → WFTable t →
      Reachable (update_data_from_table m t)
  | fromFile {m} (x_col : String) (x_data : List Val)
      (yCols : List (String × List Val)) : Reachable m → WFCols x_data yCols →
      Reachable (update_data_from_file m x_col x_data yCols)
  | pointColor {m} (i p : Nat) (c : String) (a : ArtistType) : Reachable m →
      Reachable (update_point_color m i p c a)
  | allColors {m} (c : String) : Reachable m →
      Reachable (update_all_colors m c)
  | clear {m} : Reachable m → Reachable (clear_all m)

/-! ## Concrete stores and grid snapshots used to instantiate claims -/

/-- The store of spec Scenario 1:
`replace_from_columns([1,2,3], {"S1": [10,20,30]})` on a fresh model. -/
def scenario1Store : PlottingModel :=
  update_data_from_file initialModel "X" [.num 1, .num 2, .num 3]
    [("S1", [.num 10, .num 20, .num 30])]

/-- A reachable store whose single series has zero rows:
`add_row()` then `remove_rows([0])` on a fresh model. -/
def zeroRowStore : PlottingModel :=
  remove_rows (add_row initialModel) [0]

/-- A reachable store where the user picked a custom color for point 0
of a two-row series loaded from a file: the first `colors` entry
(`"#222222"`) now differs from `primary_color` (`"#1f77b4"`). -/
def pickedColorStore : PlottingModel :=
  update_point_color
    (update_data_from_file initialModel "X" [.num 0, .num 1]
      [("A", [.num 5, .num 6])])
    0 0 "#222222" .scatter

/-- A v3.4.2 series with custom primary and segment colors. -/
def v342Series : V342.Dataset :=
  { name := "A", x := [.num 0, .num 1], y := [.num 7, .num 8],
    colors := ["#ff7f0e", "#ff7f0e"], primary_color := "#123456",
    line_segment_colors := some ["#654321"] }

/-- A v3.4.2 app state holding `v342Series`. -/
def v342State : V342.AppState :=
  { V342.initialApp with
    datasets := [v342Series], original_datasets := [v342Series] }

/-- A two-row, two-series grid snapshot matching `v342State`. -/
def v342Snap : TableData :=
  { x := [.num 0, .num 1],
    y_cols := [{ name := "A", y := [.num 7, .num 8],
                 colors := ["#ff7f0e", "#ff7f0e"] },
               { name := "B", y := [.num 1, .num 2],
                 colors := ["#ff7f0e", "#ff7f0e"] }] }

/-- The manually entered, unsorted table of the sort-gesture trace:
rows (2,10), (1,20), (3,30). -/
def sortSnap0 : TableData :=
  { x := [.num 2, .num 1, .num 3],
    y_cols := [{ name := "A", y := [.num 10, .num 20, .num 30],
                 colors := ["#ff7f0e", "#ff7f0e", "#ff7f0e"] }] }

/-- The same rows after the table widget sorted them ascending by the
x column: (1,20), (2,10), (3,30). -/
def sortSnapAsc : TableData :=
  { x := [.num 1, .num 2, .num 3],
    y_cols := [{ name := "A", y := [.num 20, .num 10, .num 30],
                 colors := ["#ff7f0e", "#ff7f0e", "#ff7f0e"] }] }

/-- The same rows sorted descending: (3,30), (2,10), (1,20). -/
def sortSnapDesc : TableData :=
  { x := [.num 3, .num 2, .num 1],
    y_cols := [{ name := "A", y := [.num 30, .num 10, .num 20],
                 colors := ["#ff7f0e", "#ff7f0e", "#ff7f0e"] }] }

/-- State after the user enters the unsorted rows (the last non-sort
mutation). -/
def sortState1 : V342.AppState :=
  V342.update_data_from_table V342.initialApp sortSnap0

/-- State after the first header click (table now ascending). -/
def sortState2 : V342.AppState :=
  V342.on_table_sort sortState1 0 sortSnapAsc

/-- State after the second header click (table now descending). -/
def sortState3 : V342.AppState :=
  V342.on_table_sort sortState2 0 sortSnapDesc

/-- State after the third header click (the "undo sort" branch). -/
def sortState4 : V342.AppState :=
  V342.on_table_sort sortState3 0 sortSnapAsc

/-! ## List helper lemmas -/

theorem get?_some_of_lt {α : Type _} :
    ∀ (l : List α) (i : Nat), i < l.length → ∃ v, l.get? i = some v
  | [], i, h => absurd h (Nat.not_lt_zero i)
  | a :: _, 0, _ => ⟨a, rfl⟩
  | _ :: l, i + 1, h => get?_some_of_lt l i (Nat.lt_of_succ_lt_succ h)

theorem eraseIdx_len {α : Type _} :
    ∀ (l : List α) (i : Nat), i < l.length →
      (l.eraseIdx i).length = l.length - 1
  | [], i, h => absurd h (Nat.not_lt_zero i)
  | _ :: _, 0, _ => rfl
  | a :: l, i + 1, h => by
    have ih := eraseIdx_len l i (Nat.lt_of_succ_lt_succ h)
    have hl : 1 ≤ l.length := by
      have := Nat.lt_of_succ_lt_succ h
      omega
    simp only [List.eraseIdx, List.length_cons, ih]
    omega

theorem insertAt_nil {α : Type _} (i : Nat) (v : α) :
    insertAt ([] : List α) i v = [v] := by
  cases i <;> rfl

theorem insertAt_zero {α : Type _} (l : List α) (v : α) :
    insertAt l 0 v = v :: l := rfl

theorem insertAt_succ_cons {α : Type _} (a : α) (l : List α) (i : Nat) (v : α) :
    insertAt (a :: l) (i + 1) v = a :: insertAt l i v := rfl

theorem insertAt_len {α : Type _} :
    ∀ (l : List α) (i : Nat) (v : α), (insertAt l i v).length = l.length + 1
  | [], i, v => by rw [insertAt_nil]; rfl
  | _ :: _, 0, _ => rfl
  | a :: l, i + 1, v => by
    rw [insertAt_succ_cons, List.length_cons, List.length_cons,
      insertAt_len l i v]

theorem insertAt_get?_self {α : Type _} :
    ∀ (l : List α) (i : Nat) (v : α), i ≤ l.length →
      (insertAt l i v).get? i = some v
  | _, 0, _, _ => rfl
  | [], i + 1, v, h => absurd h (by simp)
  | a :: l, i + 1, v, h => by
    rw [insertAt_succ_cons, List.get?_cons_succ]
    exact insertAt_get?_self l i v (Nat.le_of_succ_le_succ h)

theorem insertAt_eraseIdx {α : Type _} :
    ∀ (l : List α) (i : Nat) (v : α), i ≤ l.length →
      (insertAt l i v).eraseIdx i = l
  | _, 0, _, _ => rfl
  | [], i + 1, v, h => absurd h (by simp)
  | a :: l, i + 1, v, h => by
    rw [insertAt_succ_cons, List.eraseIdx_cons_succ,
      insertAt_eraseIdx l i v (Nat.le_of_succ_le_succ h)]

theorem setIdx_nil {α : Type _} (i : Nat) (f : α → α) :
    setIdx ([] : List α) i f = [] := rfl

theorem setIdx_cons_zero {α : Type _} (a : α) (l : List α) (f : α → α) :
    setIdx (a :: l) 0 f = f a :: l := rfl

theorem setIdx_cons_succ {α : Type _} (a : α) (l : List α) (i : Nat) (f : α → α) :
    setIdx (a :: l) (i + 1) f = a :: setIdx l i f := by
  unfold setIdx
  rw [List.get?_cons_succ]
  cases h : l.get? i <;> rfl

theorem setIdx_get?_eq {α : Type _} :
    ∀ (l : List α) (i : Nat) (f : α → α) (v : α), l.get? i = some v →
      (setIdx l i f).get? i = some (f v)
  | [], i, _, _, h => by simp at h
  | a :: l, 0, f, v, h => by
    obtain rfl : a = v := by simpa using h
    rw [setIdx_cons_zero, List.get?_cons_zero]
  | a :: l, i + 1, f, v, h => by
    rw [setIdx_cons_succ, List.get?_cons_succ]
    exact setIdx_get?_eq l i f v (by simpa using h)

theorem setIdx_get?_ne {α : Type _} :
    ∀ (l : List α) (i j : Nat) (f : α → α), j ≠ i →
      (setIdx l i f).get? j = l.get? j
  | [], _, _, _, _ => rfl
  | a :: l, 0, 0, f, h => absurd rfl h
  | a :: l, 0, j + 1, f, _ => by rw [setIdx_cons_zero, List.get?_cons_succ]; rfl
  | a :: l, i + 1, 0, f, _ => by rw [setIdx_cons_succ]; rfl
  | a :: l, i + 1, j + 1, f, h => by
    rw [setIdx_cons_succ, List.get?_cons_succ, List.get?_cons_succ]
    exact setIdx_get?_ne l i j f (fun hji => h (by rw [hji]))

theorem setIdx_congr_id {α : Type _} :
    ∀ (l : List α) (i : Nat) (f : α → α), (∀ a ∈ l, f a = a) →
      setIdx l i f = l
  | [], _, _, _ => rfl
  | a :: l, 0, f, h => by
    rw [setIdx_cons_zero, h a (List.mem_cons_self a l)]
  | a :: l, i + 1, f, h => by
    rw [setIdx_cons_succ,
      setIdx_congr_id l i f (fun b hb => h b (List.mem_cons_of_mem a hb))]

theorem setIdx_len {α : Type _} :
    ∀ (l : List α) (i : Nat) (f : α → α), (setIdx l i f).length = l.length
  | [], _, _ => rfl
  | a :: l, 0, f => rfl
  | a :: l, i + 1, f => by
    rw [setIdx_cons_succ, List.length_cons, List.length_cons, setIdx_len l i f]

theorem mem_insertDesc {a b : Nat} :
    ∀ {l : List Nat}, b ∈ insertDesc a l ↔ b = a ∨ b ∈ l := by
  intro l
  induction l with
  | nil => simp [insertDesc]
  | cons c l ih =>
    by_cases h : c ≤ a
    · simp [insertDesc, h, List.mem_cons]
    · simp only [insertDesc, if_neg h, List.mem_cons, ih]
      tauto

theorem mem_sortDesc {a : Nat} :
    ∀ {l : List Nat}, a ∈ sortDesc l ↔ a ∈ l := by
  intro l
  induction l with
  | nil => simp [sortDesc]
  | cons c l ih =>
    simp only [sortDesc, List.foldr_cons, mem_insertDesc, List.mem_cons]
    rw [show l.foldr insertDesc [] = sortDesc l from rfl] at *
    simp [ih]

theorem mapOpt_eq_some_map {α β : Type _} (f : α → Option β) (g : α → β) :
    ∀ (l : List α), (∀ a ∈ l, f a = some (g a)) →
      mapOpt f l = some (l.map g)
  | [], _ => rfl
  | a :: l, h => by
    have ha := h a (List.mem_cons_self a l)
    have hl := mapOpt_eq_some_map f g l (fun b hb => h b (List.mem_cons_of_mem a hb))
    simp [mapOpt, ha, hl]

/-! ## The alignment invariant of reachable stores -/

/-- All series share some common `x`/`y`/`colors` length. -/
def SomeAligned (dss : List Dataset) : Prop := ∃ n, AlignedTo n dss

theorem alignedTo_head {dss : List Dataset} :
    SomeAligned dss → AlignedTo (headRowCount dss) dss := by
  rintro ⟨n, h⟩
  cases dss with
  | nil => intro ds hds; simp at hds
  | cons d0 rest =>
    have h0 := (h d0 (List.mem_cons_self _ _)).1
    simpa only [headRowCount, h0] using h

theorem map_alignedTo (l : List Dataset) (f : Dataset → Dataset) (n : Nat)
    (hl : AlignedTo n l)
    (hf : ∀ b ∈ l, (f b).x.length = b.x.length ∧ (f b).y.length = b.y.length ∧
      (f b).colors.length = b.colors.length) :
    AlignedTo n (l.map f) := by
  intro ds hds
  obtain ⟨b, hb, rfl⟩ := List.mem_map.mp hds
  obtain ⟨h1, h2, h3⟩ := hf b hb
  obtain ⟨g1, g2, g3⟩ := hl b hb
  exact ⟨h1.trans g1, h2.trans g2, h3.trans g3⟩

theorem setIdx_alignedTo :
    ∀ (l : List Dataset) (i : Nat) (f : Dataset → Dataset) (n : Nat),
      AlignedTo n l →
      (∀ b ∈ l, (f b).x.length = b.x.length ∧ (f b).y.length = b.y.length ∧
        (f b).colors.length = b.colors.length) →
      AlignedTo n (setIdx l i f)
  | [], i, f, n, _, _ => by intro ds hds; simp [setIdx_nil] at hds
  | a :: l, 0, f, n, hl, hf => by
    rw [setIdx_cons_zero]
    intro ds hds
    rcases List.mem_cons.mp hds with rfl | hds
    · obtain ⟨h1, h2, h3⟩ := hf a (List.mem_cons_self _ _)
      obtain ⟨g1, g2, g3⟩ := hl a (List.mem_cons_self _ _)
      exact ⟨h1.trans g1, h2.trans g2, h3.trans g3⟩
    · exact hl ds (List.mem_cons_of_mem _ hds)
  | a :: l, i + 1, f, n, hl, hf => by
    rw [setIdx_cons_succ]
    intro ds hds
    rcases List.mem_cons.mp hds with rfl | hds
    · exact hl ds (List.mem_cons_self _ _)
    · exact setIdx_alignedTo l i f n
        (fun b hb => hl b (List.mem_cons_of_mem _ hb))
        (fun b hb => hf b (List.mem_cons_of_mem _ hb)) ds hds

theorem alignedTo_fromFile (m : PlottingModel) (x_col : String)
    (x_data : List Val) (yCols : List (String × List Val))
    (hwf : WFCols x_data yCols) :
    SomeAligned (update_data_from_file m x_col x_data yCols).datasets := by
  unfold update_data_from_file
  by_cases hg : x_col = "" ∨ yCols = []
  · rw [if_pos hg]
    exact ⟨0, fun ds hds => by simp at hds⟩
  · rw [if_neg hg]
    refine ⟨x_data.length, fun ds hds => ?_⟩
    simp only [List.mem_map] at hds
    obtain ⟨yc, hyc, rfl⟩ := hds
    exact ⟨rfl, hwf yc hyc, by simp⟩

theorem alignedTo_fromGrid (m : PlottingModel) (t : TableData)
    (hwf : WFTable t) :
    SomeAligned (update_data_from_table m t).datasets := by
  refine ⟨t.x.length, fun ds hds => ?_⟩
  simp only [update_data_from_table, List.mem_map] at hds
  obtain ⟨yc, hyc, rfl⟩ := hds
  exact ⟨rfl, (hwf yc hyc).1, (hwf yc hyc).2⟩

theorem alignedTo_add_row (m : PlottingModel) (h : SomeAligned m.datasets) :
    SomeAligned (add_row m).datasets := by
  obtain ⟨n, hn⟩ := h
  by_cases he : m.datasets = []
  · refine ⟨1, fun ds hds => ?_⟩
    simp only [add_row, if_pos he, List.mem_singleton] at hds
    subst hds
    exact ⟨rfl, rfl, rfl⟩
  · refine ⟨n + 1, fun ds hds => ?_⟩
    simp only [add_row, if_neg he, List.mem_map] at hds
    obtain ⟨b, hb, rfl⟩ := hds
    obtain ⟨h1, h2, h3⟩ := hn b hb
    unfold add_row_ds
    simp only [List.length_append, List.length_singleton]
    exact ⟨by rw [h1], by rw [h2], by rw [h3]⟩

theorem alignedTo_remove_step (dss : List Dataset) (row : Nat)
    (h : SomeAligned dss) : SomeAligned (remove_rows_step dss row) := by
  obtain ⟨n, hn⟩ := h
  cases dss with
  | nil => exact ⟨n, fun ds hds => by simp [remove_rows_step] at hds⟩
  | cons d0 rest =>
    by_cases hr : row < d0.x.length
    · refine ⟨n - 1, fun ds hds => ?_⟩
      simp only [remove_rows_step, if_pos hr, List.mem_map] at hds
      obtain ⟨b, hb, rfl⟩ := hds
      obtain ⟨h1, h2, h3⟩ := hn b hb
      have hrn : row < n := by
        have h0 := (hn d0 (List.mem_cons_self _ _)).1
        omega
      unfold remove_row_ds
      refine ⟨?_, ?_, ?_⟩
      · show (b.x.eraseIdx row).length = n - 1
        rw [eraseIdx_len b.x row (by omega), h1]
      · show (b.y.eraseIdx row).length = n - 1
        rw [eraseIdx_len b.y row (by omega), h2]
      · show (b.colors.eraseIdx row).length = n - 1
        rw [eraseIdx_len b.colors row (by omega), h3]
    · exact ⟨n, by simpa only [remove_rows_step, if_neg hr] using hn⟩

theorem alignedTo_remove_fold :
    ∀ (rows : List Nat) (dss : List Dataset), SomeAligned dss →
      SomeAligned (rows.foldl remove_rows_step dss)
  | [], _, h => h
  | r :: rows, dss, h =>
    alignedTo_remove_fold rows _ (alignedTo_remove_step dss r h)

theorem alignedTo_remove_rows (m : PlottingModel) (rows : List Nat)
    (h : SomeAligned m.datasets) :
    SomeAligned (remove_rows m rows).datasets :=
  alignedTo_remove_fold (sortDesc rows) m.datasets h

theorem popInsert_len {α : Type _} (l : List α) (f t : Nat)
    (h : f < l.length) : (popInsert l f t).length = l.length := by
  obtain ⟨v, hv⟩ := get?_some_of_lt l f h
  unfold popInsert
  rw [hv, insertAt_len, eraseIdx_len l f h]
  omega

theorem alignedTo_move_row (m : PlottingModel) (f t : Nat)
    (h : SomeAligned m.datasets) :
    SomeAligned (move_row m f t).datasets := by
  obtain ⟨n, hn⟩ := h
  rcases hm : m.datasets with _ | ⟨d0, rest⟩
  · exact ⟨n, by simp only [move_row, hm]; rw [hm] at hn; exact hn⟩
  · have hn' : AlignedTo n (d0 :: rest) := by rw [hm] at hn; exact hn
    have h0 : d0.x.length = n := (hn' d0 (List.mem_cons_self _ _)).1
    by_cases hg : f < d0.x.length ∧ t < d0.x.length
    · refine ⟨n, ?_⟩
      simp only [move_row, hm, if_pos hg]
      refine map_alignedTo _ _ n hn' (fun b hb => ?_)
      obtain ⟨h1, h2, h3⟩ := hn' b hb
      refine ⟨?_, ?_, ?_⟩
      · show (popInsert b.x f t).length = b.x.length
        exact popInsert_len b.x f t (by omega)
      · show (popInsert b.y f t).length = b.y.length
        exact popInsert_len b.y f t (by omega)
      · show (popInsert b.colors f t).length = b.colors.length
        exact popInsert_len b.colors f t (by omega)
    · refine ⟨n, ?_⟩
      simp only [move_row, hm, if_neg hg]
      exact hn'

theorem alignedTo_point_color (m : PlottingModel) (i p : Nat) (c : String)
    (a : ArtistType) (h : SomeAligned m.datasets) :
    SomeAligned (update_point_color m i p c a).datasets := by
  obtain ⟨n, hn⟩ := h
  refine ⟨n, ?_⟩
  unfold update_point_color
  by_cases hi : i < m.datasets.length
  · rw [if_pos hi]
    cases a with
    | line =>
      refine setIdx_alignedTo _ i _ n hn (fun b _ => ?_)
      by_cases hc : 0 < p ∧ p ≤ b.line_segment_colors.length <;>
        simp [hc]
    | scatter =>
      refine setIdx_alignedTo _ i _ n hn (fun b _ => ?_)
      by_cases hc : p < b.colors.length <;> simp [hc]
    | bar =>
      refine setIdx_alignedTo _ i _ n hn (fun b _ => ?_)
      by_cases hc : p < b.colors.length <;> simp [hc]
  · rw [if_neg hi]
    exact hn

theorem alignedTo_all_colors (m : PlottingModel) (c : String)
    (h : SomeAligned m.datasets) :
    SomeAligned (update_all_colors m c).datasets := by
  obtain ⟨n, hn⟩ := h
  refine ⟨n, map_alignedTo _ _ n hn (fun b _ => ?_)⟩
  simp

theorem reachable_aligned {m : PlottingModel} (h : Reachable m) :
    SomeAligned m.datasets := by
  induction h with
  | init => exact ⟨0, fun ds hds => by simp [initialModel] at hds⟩
  | addRow _ ih => exact alignedTo_add_row _ ih
  | removeRows rows _ ih => exact alignedTo_remove_rows _ rows ih
  | moveRow i j _ ih => exact alignedTo_move_row _ i j ih
  | fromGrid t _ hwf _ => exact alignedTo_fromGrid _ t hwf
  | fromFile x_col x_data yCols _ hwf _ =>
    exact alignedTo_fromFile _ x_col x_data yCols hwf
  | pointColor i p c a _ ih => exact alignedTo_point_color _ i p c a ih
  | allColors c _ ih => exact alignedTo_all_colors _ c ih
  | clear _ _ => exact ⟨0, fun ds hds => by simp [clear_all, initialModel] at hds⟩

/-! ## Raising behaviour on aligned stores -/

theorem remove_row_ds?_eq (row : Nat) (ds : Dataset)
    (hx : row < ds.x.length) (hy : row < ds.y.length)
    (hc : row < ds.colors.length) :
    remove_row_ds? row ds = some (remove_row_ds row ds) := by
  simp [remove_row_ds?, remove_row_ds, eraseIdx?, hx, hy, hc]

theorem remove_rows_step?_eq (dss : List Dataset) (row : Nat)
    (h : SomeAligned dss) :
    remove_rows_step? dss row = some (remove_rows_step dss row) := by
  obtain ⟨n, hn⟩ := h
  cases dss with
  | nil => rfl
  | cons d0 rest =>
    by_cases hr : row < d0.x.length
    · have h0 : d0.x.length = n := (hn d0 (List.mem_cons_self _ _)).1
      simp only [remove_rows_step?, remove_rows_step, if_pos hr]
      exact mapOpt_eq_some_map _ _ _ (fun b hb => by
        obtain ⟨h1, h2, h3⟩ := hn b hb
        exact remove_row_ds?_eq row b (by omega) (by omega) (by omega))
    · simp only [remove_rows_step?, remove_rows_step, if_neg hr]

theorem remove_fold?_eq :
    ∀ (rows : List Nat) (dss : List Dataset), SomeAligned dss →
      foldOpt remove_rows_step? dss rows =
        some (rows.foldl remove_rows_step dss)
  | [], _, _ => rfl
  | r :: rows, dss, h => by
    have hstep := remove_rows_step?_eq dss r h
    have halign := alignedTo_remove_step dss r h
    simp only [foldOpt, hstep, List.foldl_cons]
    exact remove_fold?_eq rows _ halign

theorem remove_rows?_eq (m : PlottingModel) (rows : List Nat)
    (h : SomeAligned m.datasets) :
    remove_rows? m rows = some (remove_rows m rows) := by
  unfold remove_rows? remove_rows
  rw [remove_fold?_eq (sortDesc rows) m.datasets h]

theorem move_row_ds?_eq (f t : Nat) (ds : Dataset)
    (hx : f < ds.x.length) (hy : f < ds.y.length)
    (hc : f < ds.colors.length) :
    move_row_ds? f t ds = some
      { ds with
        x := popInsert ds.x f t,
        y := popInsert ds.y f t,
        colors := popInsert ds.colors f t } := by
  obtain ⟨vx, hvx⟩ := get?_some_of_lt ds.x f hx
  obtain ⟨vy, hvy⟩ := get?_some_of_lt ds.y f hy
  obtain ⟨vc, hvc⟩ := get?_some_of_lt ds.colors f hc
  simp only [List.get?_eq_getElem?] at hvx hvy hvc
  simp [move_row_ds?, pop?, popInsert, hvx, hvy, hvc]

theorem move_row?_eq (m : PlottingModel) (f t : Nat)
    (h : SomeAligned m.datasets) :
    move_row? m f t = some (move_row m f t) := by
  obtain ⟨n, hn⟩ := h
  rcases hm : m.datasets with _ | ⟨d0, rest⟩
  · simp only [move_row?, move_row, hm]
  · have hn' : AlignedTo n (d0 :: rest) := by rw [hm] at hn; exact hn
    have h0 : d0.x.length = n := (hn' d0 (List.mem_cons_self _ _)).1
    by_cases hg : f < d0.x.length ∧ t < d0.x.length
    · simp only [move_row?, move_row, hm, if_pos hg]
      rw [mapOpt_eq_some_map _
        (fun ds => { ds with
          x := popInsert ds.x f t,
          y := popInsert ds.y f t,
          colors := popInsert ds.colors f t }) _
        (fun b hb => by
          obtain ⟨h1, h2, h3⟩ := hn' b hb
          exact move_row_ds?_eq f t b (by omega) (by omega) (by omega))]
    · simp only [move_row?, move_row, hm, if_neg hg]

/-! ## Out-of-range requests are silent no-ops -/

theorem remove_fold_noop :
    ∀ (rows : List Nat) (dss : List Dataset),
      (∀ r ∈ rows, headRowCount dss ≤ r) →
      rows.foldl remove_rows_step dss = dss
  | [], _, _ => rfl
  | r :: rows, dss, h => by
    have h1 : remove_rows_step dss r = dss := by
      cases dss with
      | nil => rfl
      | cons d0 rest =>
        have hr := h r (List.mem_cons_self _ _)
        simp only [headRowCount] at hr
        simp only [remove_rows_step, if_neg (by omega : ¬ r < d0.x.length)]
    rw [List.foldl_cons, h1]
    exact remove_fold_noop rows dss (fun r' hr' => h r' (List.mem_cons_of_mem _ hr'))

theorem remove_rows_noop (m : PlottingModel) (rows : List Nat)
    (h : ∀ r ∈ rows, rowCount m ≤ r) :
    (remove_rows m rows).datasets = m.datasets := by
  show (sortDesc rows).foldl remove_rows_step m.datasets = m.datasets
  exact remove_fold_noop (sortDesc rows) m.datasets
    (fun r hr => h r (mem_sortDesc.mp hr))

theorem move_row_noop (m : PlottingModel) (f t : Nat)
    (h : rowCount m ≤ f ∨ rowCount m ≤ t) : move_row m f t = m := by
  rcases hm : m.datasets with _ | ⟨d0, rest⟩
  · simp only [move_row, hm]
  · have hng : ¬ (f < d0.x.length ∧ t < d0.x.length) := by
      simp only [rowCount, headRowCount, hm] at h
      omega
    simp only [move_row, hm, if_neg hng]

theorem point_color_ds_noop (m : PlottingModel) (i p : Nat) (c : String)
    (a : ArtistType) (h : m.datasets.length ≤ i) :
    update_point_color m i p c a = m := by
  unfold update_point_color
  rw [if_neg (by omega)]

theorem fromGrid_empty (m : PlottingModel) (t : TableData)
    (h : t.y_cols = []) : (update_data_from_table m t).datasets = [] := by
  simp [update_data_from_table, h]

theorem fromFile_empty (m : PlottingModel) (x_col : String)
    (x_data : List Val) (yCols : List (String × List Val))
    (h : x_col = "" ∨ yCols = []) :
    (update_data_from_file m x_col x_data yCols).datasets = [] := by
  simp only [update_data_from_file, if_pos h]

/-! ## The v3.4.2 table rebuild, indexed -/

theorem rebuild_get? (st : V342.AppState) (t : TableData) :
    ∀ (cols : List YColData) (j k : Nat),
      (V342.rebuildFromTable st t j cols).get? k =
        (cols.get? k).map (V342.buildCol st t (j + k))
  | [], j, k => by simp [V342.rebuildFromTable]
  | yc :: rest, j, 0 => by simp [V342.rebuildFromTable]
  | yc :: rest, j, k + 1 => by
    simp only [V342.rebuildFromTable, List.get?_cons_succ]
    rw [rebuild_get? st t rest (j + 1) k,
      show j + 1 + k = j + (k + 1) by omega]

/-! ## A few more list facts -/

theorem lt_length_of_get?_some {α : Type _} :
    ∀ {l : List α} {i : Nat} {v : α}, l.get? i = some v → i < l.length
  | [], _, _, h => by simp at h
  | _ :: _, 0, _, _ => Nat.succ_pos _
  | _ :: l, i + 1, v, h =>
    Nat.succ_lt_succ (lt_length_of_get?_some (l := l) (by simpa using h))

theorem set_get?_self {α : Type _} :
    ∀ (l : List α) (i : Nat) (v : α), l.get? i = some v → l.set i v = l
  | [], _, _, h => by simp at h
  | a :: l, 0, v, h => by
    obtain rfl : a = v := by simpa using h
    rfl
  | a :: l, i + 1, v, h => by
    have hrec := set_get?_self l i v (by simpa using h)
    show a :: l.set i v = a :: l
    rw [hrec]

theorem setIdx_id_at {α : Type _} (l : List α) (i : Nat) (f : α → α) (v : α)
    (hget : l.get? i = some v) (hf : f v = v) : setIdx l i f = l := by
  unfold setIdx
  rw [hget]
  show l.set i (f v) = l
  rw [hf]
  exact set_get?_self l i v hget

theorem getLast?_some_of_ne_nil {α : Type _} :
    ∀ (l : List α), l ≠ [] → ∃ v, l.getLast? = some v
  | [], h => absurd rfl h
  | [a], _ => ⟨a, rfl⟩
  | a :: b :: l, _ => by
    obtain ⟨v, hv⟩ := getLast?_some_of_ne_nil (b :: l) (by simp)
    exact ⟨v, by rw [List.getLast?_cons_cons]; exact hv⟩

theorem getLast?_none {α : Type _} :
    ∀ {l : List α}, l.getLast? = none → l = []
  | [], _ => rfl
  | [a], h => by simp at h
  | a :: b :: l, h => by
    rw [List.getLast?_cons_cons] at h
    exact absurd (getLast?_none h) (by simp)

/-! ## Claim theorems -/

/-- C1: the claimed invariant fails on the code.  On the store reached
from an empty model by `add_row(); add_row(); remove_rows([1])`, the
single remaining series has `len(x) = 1` but `line_segment_colors` still
holds one entry: removing the *last* row skips the segment delete
(`remove_rows` only deletes `line_segment_colors[row]` when
`row < len(line_segment_colors)`, and for the last row
`row = len(x) - 1 = len(line_segment_colors)`), so
`len(line_segment_colors) = max(len(x) - 1, 0)` is violated on a
reachable state.  (The `len(x) == len(y) == len(colors)` half does hold
there — the conjunction fails only through the segment-color half.) -/
theorem C1_invariant_violation :
    Reachable (remove_rows (add_row (add_row initialModel)) [1]) ∧
    (remove_rows (add_row (add_row initialModel)) [1]).datasets =
      [{ name := "數據1", x := [Val.num 0], y := [Val.num 0],
         colors := ["#1f77b4"], primary_color := "#1f77b4",
         line_segment_colors := ["#1f77b4"] }] ∧
    ¬ (∀ ds ∈ (remove_rows (add_row (add_row initialModel)) [1]).datasets,
        ds.x.length = ds.y.length ∧ ds.x.length = ds.colors.length ∧
        ds.line_segment_colors.length = max (ds.x.length - 1) 0) :=
  ⟨Reachable.removeRows [1] (Reachable.addRow (Reachable.addRow Reachable.init)),
   by decide, by decide⟩

/-- C3: `replace_from_columns` (`update_data_from_file`) with a
non-empty selection whose columns all have the x column's length (the
`DataFrame` shape pandas guarantees, under which "truncated to the
shortest aligned length" is the identity) discards the current series
and builds exactly one series per y column: each shares `x_values`,
carries its column's values as `y`, `colors` is one default color per
row, `line_segment_colors` one default color per gap, and
`primary_color` is the default color.  In `abc.py` the default point
color and the default line color are the same setting,
`plot_color_hex`. -/
theorem C3_replace_from_columns (m : PlottingModel) (x_col : String)
    (x_data : List Val) (yCols : List (String × List Val))
    (hx : x_col ≠ "") (hy : yCols ≠ []) (hwf : WFCols x_data yCols) :
    (update_data_from_file m x_col x_data yCols).datasets.length =
      yCols.length ∧
    ∀ i nm ys, yCols.get? i = some (nm, ys) →
      ys.length = x_data.length ∧
      (update_data_from_file m x_col x_data yCols).datasets.get? i = some
        { name := nm, x := x_data, y := ys,
          colors := List.replicate x_data.length m.plot_color_hex,
          primary_color := m.plot_color_hex,
          line_segment_colors :=
            List.replicate (x_data.length - 1) m.plot_color_hex } := by
  have hng : ¬ (x_col = "" ∨ yCols = []) := by
    rintro (h | h)
    · exact hx h
    · exact hy h
  constructor
  · simp [update_data_from_file, if_neg hng]
  · intro i nm ys hget
    constructor
    · have hmem : (nm, ys) ∈ yCols := by
        have := lt_length_of_get?_some hget
        exact List.get?_mem hget
      exact hwf (nm, ys) hmem
    · simp only [update_data_from_file, if_neg hng]
      rw [List.get?_map, hget]
      rfl

/-- Witness for C3 at the spec's Scenario 1:
`replace_from_columns([1,2,3], {"S1": [10,20,30]})` yields one series
named "S1" with `x=[1,2,3]`, `y=[10,20,30]`, three default-color
entries in `colors` and two in `line_segment_colors`. -/
theorem C3_witness :
    ("X" ≠ "") ∧
    ([("S1", [Val.num 10, Val.num 20, Val.num 30])] ≠
      ([] : List (String × List Val))) ∧
    WFCols [Val.num 1, Val.num 2, Val.num 3]
      [("S1", [Val.num 10, Val.num 20, Val.num 30])] ∧
    scenario1Store.datasets.get? 0 = some
      { name := "S1", x := [Val.num 1, Val.num 2, Val.num 3],
        y := [Val.num 10, Val.num 20, Val.num 30],
        colors := ["#1f77b4", "#1f77b4", "#1f77b4"],
        primary_color := "#1f77b4",
        line_segment_colors := ["#1f77b4", "#1f77b4"] } := by
  refine ⟨by decide, by decide, by decide, ?_⟩
  have h := (C3_replace_from_columns initialModel "X"
    [Val.num 1, Val.num 2, Val.num 3]
    [("S1", [Val.num 10, Val.num 20, Val.num 30])]
    (by decide) (by decide) (by decide)).2
    0 "S1" [Val.num 10, Val.num 20, Val.num 30] (by decide)
  have h2 := h.2
  rw [show scenario1Store = update_data_from_file initialModel "X"
    [Val.num 1, Val.num 2, Val.num 3]
    [("S1", [Val.num 10, Val.num 20, Val.num 30])] from rfl, h2]
  decide

/-- C4: the "undo sort" gesture does not restore the pre-sort order.
Starting from manually entered rows (2,10), (1,20), (3,30) — state
`sortState1`, whose shadow copy `original_datasets` holds that order —
three consecutive header clicks on column 0 leave the store in the
order captured by the *second* sort click ((3,2,1), descending), not
the order of the last non-sort mutation ((2,1,3)): the first and second
clicks run `update_data_from_table`, whose final
`self.original_datasets = [ds.copy() ...]` overwrites the shadow copy
with the freshly sorted rows, so the third click's restore
(`self.datasets = [ds.copy() for ds in self.original_datasets]`)
reinstates the second click's order.  The reset of the sort indicator
(`last_sort_col = -1`) does happen. -/
theorem C4_sort_reset_bug :
    sortState1.datasets.map (fun ds => ds.x) =
      [[Val.num 2, Val.num 1, Val.num 3]] ∧
    sortState1.original_datasets.map (fun ds => ds.x) =
      [[Val.num 2, Val.num 1, Val.num 3]] ∧
    sortState4.datasets.map (fun ds => ds.x) =
      [[Val.num 3, Val.num 2, Val.num 1]] ∧
    sortState4.last_sort_col = -1 ∧
    sortState4.datasets ≠ sortState1.datasets := by
  refine ⟨by decide, by decide, by decide, by decide, by decide⟩

/-- C5 counterexample: on the reachable store `zeroRowStore`
(`add_row(); remove_rows([0])`), which has exactly one series (with
zero rows), `add_row` appends a row to that series but
`line_segment_colors` gains *no* entry (the append is guarded by
`len(ds['x']) > 1`), and the new `x` value is `1` (`last_x` defaults to
`0` when `x` is empty, then `+ 1`), refuting the claim's "for every
store with at least one series … `line_segment_colors` gains exactly
one entry equal to `primary_color`". -/
theorem C5_counterexample :
    Reachable zeroRowStore ∧
    zeroRowStore.datasets.length = 1 ∧
    zeroRowStore.datasets.map (fun ds => ds.line_segment_colors) = [[]] ∧
    (add_row zeroRowStore).datasets.map (fun ds => ds.line_segment_colors) =
      [[]] ∧
    (add_row zeroRowStore).datasets.map (fun ds => ds.x) = [[Val.num 1]] :=
  ⟨Reachable.removeRows [0] (Reachable.addRow Reachable.init),
   by decide, by decide, by decide, by decide⟩

/-- C5 (amended): `add_row` on an empty store creates one default
single-row series; on a non-empty store it appends exactly one row to
every series — new `x` is previous `x + 1` when the previous `x` is
numeric, the placeholder `0` when it is a string, and `1` for a series
that had no rows; new `y` is `0`; the new `colors` entry is the
series' `primary_color`; and `line_segment_colors` gains exactly one
entry equal to `primary_color` *provided the series already had at
least one row* — a zero-row series gains its first row and its (empty)
`line_segment_colors` stays empty. -/
theorem C5_add_row (m : PlottingModel) :
    (m.datasets = [] → (add_row m).datasets =
      [{ name := "數據1", x := [Val.num 0], y := [Val.num 0],
         colors := [m.plot_color_hex], primary_color := m.plot_color_hex,
         line_segment_colors := [] }]) ∧
    (∀ i ds, m.datasets.get? i = some ds → ∃ ds',
      (add_row m).datasets.get? i = some ds' ∧
      ds'.name = ds.name ∧
      ds'.primary_color = ds.primary_color ∧
      ds'.y = ds.y ++ [Val.num 0] ∧
      ds'.colors = ds.colors ++ [ds.primary_color] ∧
      ((∃ n, ds.x.getLast? = some (Val.num n) ∧
          ds'.x = ds.x ++ [Val.num (n + 1)]) ∨
       (∃ s, ds.x.getLast? = some (Val.str s) ∧
          ds'.x = ds.x ++ [Val.num 0]) ∨
       (ds.x = [] ∧ ds'.x = [Val.num 1])) ∧
      (ds.x ≠ [] →
        ds'.line_segment_colors = ds.line_segment_colors ++ [ds.primary_color]) ∧
      (ds.x = [] → ds'.line_segment_colors = ds.line_segment_colors)) := by
  constructor
  · intro he
    simp [add_row, he]
  · intro i ds hget
    have hne : m.datasets ≠ [] := by
      intro he
      rw [he] at hget
      simp at hget
    refine ⟨add_row_ds ds, ?_, ?_⟩
    · simp only [add_row, if_neg hne]
      rw [List.get?_map, hget]
      rfl
    · unfold add_row_ds
      refine ⟨rfl, rfl, rfl, rfl, ?_, ?_, ?_⟩
      · cases hl : ds.x.getLast? with
        | none =>
          have hxe : ds.x = [] := getLast?_none hl
          refine Or.inr (Or.inr ⟨hxe, ?_⟩)
          simp [hl, hxe]
        | some v =>
          cases v with
          | num n => exact Or.inl ⟨n, rfl, by simp [hl]⟩
          | str s => exact Or.inr (Or.inl ⟨s, rfl, by simp [hl]⟩)
      · intro hxne
        have hlen : 0 < ds.x.length := List.length_pos.mpr hxne
        simp only [List.length_append, List.length_singleton]
        rw [if_pos (by omega)]
      · intro hxe
        simp [hxe]

/-- Witness for C5 at the spec's Scenario 2: `add_row()` on the
Scenario 1 store appends `x 4`, `y 0`, one more `colors` entry equal to
`primary_color` and one more `line_segment_colors` entry equal to
`primary_color`. -/
theorem C5_witness :
    scenario1Store.datasets.get? 0 = some
      { name := "S1", x := [Val.num 1, Val.num 2, Val.num 3],
        y := [Val.num 10, Val.num 20, Val.num 30],
        colors := ["#1f77b4", "#1f77b4", "#1f77b4"],
        primary_color := "#1f77b4",
        line_segment_colors := ["#1f77b4", "#1f77b4"] } ∧
    (add_row scenario1Store).datasets.get? 0 = some
      { name := "S1", x := [Val.num 1, Val.num 2, Val.num 3, Val.num 4],
        y := [Val.num 10, Val.num 20, Val.num 30, Val.num 0],
        colors := ["#1f77b4", "#1f77b4", "#1f77b4", "#1f77b4"],
        primary_color := "#1f77b4",
        line_segment_colors := ["#1f77b4", "#1f77b4", "#1f77b4"] } := by
  refine ⟨by decide, ?_⟩
  obtain ⟨ds', hget, -, -, -, -, -, -, -⟩ :=
    (C5_add_row scenario1Store).2 0
      { name := "S1", x := [Val.num 1, Val.num 2, Val.num 3],
        y := [Val.num 10, Val.num 20, Val.num 30],
        colors := ["#1f77b4", "#1f77b4", "#1f77b4"],
        primary_color := "#1f77b4",
        line_segment_colors := ["#1f77b4", "#1f77b4"] } (by decide)
  refine hget.trans ?_
  rw [← hget]
  decide

/-- C6: `set_point_color` (`update_point_color`; the spec's
`target='segment'` is `artist_type='line'`, `target='point'` is
`'scatter'`/`'bar'`).  With target segment, point index `p` addresses
`line_segment_colors[p-1]` (the segment left of point `p`), point index
`0` is a no-op; with target point, `colors[p]` is set; an out-of-range
series index or point index (indices are the naturals UI hit-testing
produces) leaves the model unchanged, and no variant raises (the
operation is total). -/
theorem C6_set_point_color (m : PlottingModel) (i p : Nat) (c : String) :
    (update_point_color m i 0 c .line = m) ∧
    (∀ ds, m.datasets.get? i = some ds → 0 < p →
      p ≤ ds.line_segment_colors.length →
      (update_point_color m i p c .line).datasets.get? i =
        some { ds with
               line_segment_colors := ds.line_segment_colors.set (p - 1) c } ∧
      ∀ j, j ≠ i →
        (update_point_color m i p c .line).datasets.get? j =
          m.datasets.get? j) ∧
    (∀ ds, m.datasets.get? i = some ds →
      ds.line_segment_colors.length < p →
      update_point_color m i p c .line = m) ∧
    (∀ a, m.datasets.length ≤ i → update_point_color m i p c a = m) ∧
    (∀ a, a ≠ ArtistType.line → ∀ ds, m.datasets.get? i = some ds →
      p < ds.colors.length →
      (update_point_color m i p c a).datasets.get? i =
        some { ds with colors := ds.colors.set p c } ∧
      ∀ j, j ≠ i →
        (update_point_color m i p c a).datasets.get? j = m.datasets.get? j) ∧
    (∀ a, a ≠ ArtistType.line → ∀ ds, m.datasets.get? i = some ds →
      ds.colors.length ≤ p → update_point_color m i p c a = m) := by
  refine ⟨?_, ?_, ?_, ?_, ?_, ?_⟩
  · unfold update_point_color
    by_cases hi : i < m.datasets.length
    · rw [if_pos hi]
      have hid : setIdx m.datasets i (fun ds =>
          if 0 < 0 ∧ 0 ≤ ds.line_segment_colors.length then
            { ds with line_segment_colors :=
                ds.line_segment_colors.set (0 - 1) c }
          else ds) = m.datasets :=
        setIdx_congr_id _ _ _ (fun a _ => by simp)
      rw [hid]
    · rw [if_neg hi]
  · intro ds hget hp hple
    have hi : i < m.datasets.length := lt_length_of_get?_some hget
    constructor
    · unfold update_point_color
      rw [if_pos hi]
      show (setIdx m.datasets i _).get? i = _
      rw [setIdx_get?_eq m.datasets i _ ds hget]
      rw [if_pos ⟨hp, hple⟩]
    · intro j hj
      unfold update_point_color
      rw [if_pos hi]
      exact setIdx_get?_ne m.datasets i j _ hj
  · intro ds hget hlt
    have hi : i < m.datasets.length := lt_length_of_get?_some hget
    unfold update_point_color
    rw [if_pos hi]
    have hid := setIdx_id_at m.datasets i (fun ds =>
      if 0 < p ∧ p ≤ ds.line_segment_colors.length then
        { ds with line_segment_colors := ds.line_segment_colors.set (p - 1) c }
      else ds) ds hget
      (by simp [show ¬ (0 < p ∧ p ≤ ds.line_segment_colors.length) from by omega])
    rw [hid]
  · intro a hi
    unfold update_point_color
    rw [if_neg (by omega)]
  · intro a ha ds hget hp
    have hi : i < m.datasets.length := lt_length_of_get?_some hget
    cases a with
    | line => exact absurd rfl ha
    | scatter =>
      constructor
      · unfold update_point_color
        rw [if_pos hi]
        show (setIdx m.datasets i _).get? i = _
        rw [setIdx_get?_eq m.datasets i _ ds hget, if_pos hp]
      · intro j hj
        unfold update_point_color
        rw [if_pos hi]
        exact setIdx_get?_ne m.datasets i j _ hj
    | bar =>
      constructor
      · unfold update_point_color
        rw [if_pos hi]
        show (setIdx m.datasets i _).get? i = _
        rw [setIdx_get?_eq m.datasets i _ ds hget, if_pos hp]
      · intro j hj
        unfold update_point_color
        rw [if_pos hi]
        exact setIdx_get?_ne m.datasets i j _ hj
  · intro a ha ds hget hple
    have hi : i < m.datasets.length := lt_length_of_get?_some hget
    cases a with
    | line => exact absurd rfl ha
    | scatter =>
      unfold update_point_color
      rw [if_pos hi]
      have hid := setIdx_id_at m.datasets i (fun ds =>
        if p < ds.colors.length then { ds with colors := ds.colors.set p c }
        else ds) ds hget (by simp [Nat.not_lt.mpr hple])
      rw [hid]
    | bar =>
      unfold update_point_color
      rw [if_pos hi]
      have hid := setIdx_id_at m.datasets i (fun ds =>
        if p < ds.colors.length then { ds with colors := ds.colors.set p c }
        else ds) ds hget (by simp [Nat.not_lt.mpr hple])
      rw [hid]

/-- Witness for C6 at the spec's Scenario 5 (on the Scenario 1 store):
`set_point_color(0, 0, "#ff0000", segment)` is a no-op, and
`set_point_color(0, 1, "#ff0000", segment)` sets
`line_segment_colors[0]`. -/
theorem C6_witness :
    (update_point_color scenario1Store 0 0 "#ff0000" .line =
      scenario1Store) ∧
    (update_point_color scenario1Store 0 1 "#ff0000" .line).datasets.get? 0 =
      some { name := "S1", x := [Val.num 1, Val.num 2, Val.num 3],
             y := [Val.num 10, Val.num 20, Val.num 30],
             colors := ["#1f77b4", "#1f77b4", "#1f77b4"],
             primary_color := "#1f77b4",
             line_segment_colors := ["#ff0000", "#1f77b4"] } := by
  constructor
  · exact (C6_set_point_color scenario1Store 0 1 "#ff0000").1
  · have h := ((C6_set_point_color scenario1Store 0 1 "#ff0000").2.1
      { name := "S1", x := [Val.num 1, Val.num 2, Val.num 3],
        y := [Val.num 10, Val.num 20, Val.num 30],
        colors := ["#1f77b4", "#1f77b4", "#1f77b4"],
        primary_color := "#1f77b4",
        line_segment_colors := ["#1f77b4", "#1f77b4"] }
      (by decide) (by decide) (by decide)).1
    refine h.trans ?_
    decide

theorem popInsert_spec {α : Type _} (l : List α) (f t : Nat)
    (hf : f < l.length) (ht : t < l.length) :
    (popInsert l f t).get? t = l.get? f ∧
    (popInsert l f t).eraseIdx t = l.eraseIdx f := by
  obtain ⟨v, hv⟩ := get?_some_of_lt l f hf
  have hle : t ≤ (l.eraseIdx f).length := by
    rw [eraseIdx_len l f hf]
    omega
  unfold popInsert
  rw [hv]
  show (insertAt (l.eraseIdx f) t v).get? t = some v ∧
    (insertAt (l.eraseIdx f) t v).eraseIdx t = l.eraseIdx f
  exact ⟨insertAt_get?_self _ t v hle, insertAt_eraseIdx _ t v hle⟩

/-- C7: `move_row(from, to)` on an aligned store with both indices in
range relocates one row in lockstep across every series' `x`, `y` and
`colors` with pop-and-insert semantics: the moved row lands at `to`
(`result.get? to = original.get? from`) and deleting it again recovers
the original minus the moved row (`result.eraseIdx to =
original.eraseIdx from`), so all other rows keep their relative order;
`name`, `primary_color` and `line_segment_colors` are untouched.  With
either index out of the row-count bounds the call leaves the model
unchanged, and on an aligned store it never raises.  On the Scenario 1
store, `move_row(0, 2)` turns `x=[1,2,3]` into `[2,3,1]` — pop and
insert, not a swap. -/
theorem C7_move_row (m : PlottingModel) (f t : Nat) :
    (RowsAligned m → f < rowCount m → t < rowCount m →
      ∀ i ds, m.datasets.get? i = some ds → ∃ ds',
        (move_row m f t).datasets.get? i = some ds' ∧
        ds'.name = ds.name ∧ ds'.primary_color = ds.primary_color ∧
        ds'.line_segment_colors = ds.line_segment_colors ∧
        ds'.x.get? t = ds.x.get? f ∧ ds'.x.eraseIdx t = ds.x.eraseIdx f ∧
        ds'.y.get? t = ds.y.get? f ∧ ds'.y.eraseIdx t = ds.y.eraseIdx f ∧
        ds'.colors.get? t = ds.colors.get? f ∧
        ds'.colors.eraseIdx t = ds.colors.eraseIdx f) ∧
    (rowCount m ≤ f ∨ rowCount m ≤ t → move_row m f t = m) ∧
    (RowsAligned m → ∃ m', move_row? m f t = some m') ∧
    (move_row scenario1Store 0 2).datasets.map (fun ds => ds.x) =
      [[Val.num 2, Val.num 3, Val.num 1]] := by
  refine ⟨?_, move_row_noop m f t, ?_, by decide⟩
  · intro hAl hf ht i ds hget
    rcases hm : m.datasets with _ | ⟨d0, rest⟩
    · rw [hm] at hget
      simp at hget
    · have hrc : rowCount m = d0.x.length := by
        simp [rowCount, headRowCount, hm]
      have hmem : ds ∈ m.datasets := List.get?_mem hget
      obtain ⟨hx, hy, hc⟩ := hAl ds hmem
      rw [hrc] at hf ht
      have hg : f < d0.x.length ∧ t < d0.x.length := ⟨hf, ht⟩
      refine ⟨{ ds with
        x := popInsert ds.x f t,
        y := popInsert ds.y f t,
        colors := popInsert ds.colors f t }, ?_, rfl, rfl, rfl, ?_⟩
      · simp only [move_row, hm, if_pos hg]
        rw [hm] at hget
        rw [List.get?_map, hget]
        rfl
      · rw [← hrc] at hf ht
        obtain ⟨hx1, hx2⟩ := popInsert_spec ds.x f t (by rw [hx]; omega)
          (by rw [hx]; omega)
        obtain ⟨hy1, hy2⟩ := popInsert_spec ds.y f t (by rw [hy]; omega)
          (by rw [hy]; omega)
        obtain ⟨hc1, hc2⟩ := popInsert_spec ds.colors f t (by rw [hc]; omega)
          (by rw [hc]; omega)
        exact ⟨hx1, hx2, hy1, hy2, hc1, hc2⟩
  · intro hAl
    exact ⟨_, move_row?_eq m f t ⟨rowCount m, hAl⟩⟩

/-- Witness for C7 at the spec's Scenario 4: on the Scenario 1 store
(aligned, 3 rows), `move_row(0, 2)` places the popped first row at
index 2. -/
theorem C7_witness :
    RowsAligned scenario1Store ∧ 0 < rowCount scenario1Store ∧
    2 < rowCount scenario1Store ∧
    (∃ ds', (move_row scenario1Store 0 2).datasets.get? 0 = some ds' ∧
      ds'.name = "S1" ∧ ds'.x.get? 2 = some (Val.num 1)) := by
  refine ⟨by decide, by decide, by decide, ?_⟩
  obtain ⟨ds', hget, hname, -, -, hxt, -, -, -, -, -⟩ :=
    (C7_move_row scenario1Store 0 2).1 (by decide) (by decide) (by decide)
      0 { name := "S1", x := [Val.num 1, Val.num 2, Val.num 3],
          y := [Val.num 10, Val.num 20, Val.num 30],
          colors := ["#1f77b4", "#1f77b4", "#1f77b4"],
          primary_color := "#1f77b4",
          line_segment_colors := ["#1f77b4", "#1f77b4"] } (by decide)
  exact ⟨ds', hget, hname.trans rfl, hxt.trans (by decide)⟩

/-- C8: round trip.  For any `x` and `y1` of equal length,
`replace_from_columns(x, {"A": y1})` followed by projecting the store
into grid rows (`projectToTable`) and `replace_from_grid`
(`update_data_from_table`) on exactly those rows yields a store whose
single series is again named "A" with the original `x` and `y1`. -/
theorem C8_round_trip (m : PlottingModel) (x_col : String)
    (x y1 : List Val) (hx : x_col ≠ "") (hlen : y1.length = x.length) :
    (update_data_from_table
      (update_data_from_file m x_col x [("A", y1)])
      (projectToTable
        (update_data_from_file m x_col x [("A", y1)]).datasets)).datasets.map
      (fun ds => (ds.name, ds.x, ds.y)) = [("A", x, y1)] := by
  simp [update_data_from_file, hx, update_data_from_table, projectToTable]

/-- Witness for C8 at `x=[1,2,3]`, `y1=[10,20,30]`. -/
theorem C8_witness :
    ("X" ≠ "") ∧
    ([Val.num 10, Val.num 20, Val.num 30].length =
      [Val.num 1, Val.num 2, Val.num 3].length) ∧
    (update_data_from_table
      (update_data_from_file initialModel "X"
        [Val.num 1, Val.num 2, Val.num 3]
        [("A", [Val.num 10, Val.num 20, Val.num 30])])
      (projectToTable
        (update_data_from_file initialModel "X"
          [Val.num 1, Val.num 2, Val.num 3]
          [("A", [Val.num 10, Val.num 20, Val.num 30])]).datasets)).datasets.map
      (fun ds => (ds.name, ds.x, ds.y)) =
      [("A", [Val.num 1, Val.num 2, Val.num 3],
        [Val.num 10, Val.num 20, Val.num 30])] :=
  ⟨by decide, by decide,
   C8_round_trip initialModel "X" [Val.num 1, Val.num 2, Val.num 3]
     [Val.num 10, Val.num 20, Val.num 30] (by decide) (by decide)⟩

/-- C9: on every reachable store state (grid snapshots and file columns
shaped as their producers shape them, all indices arbitrary), no store
operation raises: `remove_rows` and `move_row` — the only operations
whose Python bodies contain an unguarded raising primitive
(`del l[i]` / `l.pop(i)`) — always return a value (the raising
semantics `remove_rows?` / `move_row?` yield `some`); out-of-range row
indices make `remove_rows` and `move_row` leave the series untouched;
an out-of-range series index makes `set_point_color` a no-op; an empty
grid snapshot or an empty file-column selection yields the empty
("nothing to plot") store. -/
theorem C9_no_raise (m : PlottingModel) (hm : Reachable m) :
    (∀ rows, ∃ m', remove_rows? m rows = some m') ∧
    (∀ f t, ∃ m', move_row? m f t = some m') ∧
    (∀ rows, (∀ r ∈ rows, rowCount m ≤ r) →
      (remove_rows m rows).datasets = m.datasets) ∧
    (∀ f t, rowCount m ≤ f ∨ rowCount m ≤ t → move_row m f t = m) ∧
    (∀ i p c a, m.datasets.length ≤ i → update_point_color m i p c a = m) ∧
    (∀ t : TableData, t.y_cols = [] →
      (update_data_from_table m t).datasets = []) ∧
    (∀ x_col x_data yCols, x_col = "" ∨ yCols = [] →
      (update_data_from_file m x_col x_data yCols).datasets = []) := by
  have ha := reachable_aligned hm
  exact ⟨fun rows => ⟨_, remove_rows?_eq m rows ha⟩,
    fun f t => ⟨_, move_row?_eq m f t ha⟩,
    fun rows h => remove_rows_noop m rows h,
    fun f t h => move_row_noop m f t h,
    fun i p c a h => point_color_ds_noop m i p c a h,
    fun t h => fromGrid_empty m t h,
    fun x_col x_data yCols h => fromFile_empty m x_col x_data yCols h⟩

/-- Witness for C9 on the reachable two-row store
`add_row(); add_row()`: removing row 1 and moving rows return values
(no raise), and the out-of-range requests `remove_rows([5])` and
`move_row(3, 7)` are no-ops. -/
theorem C9_witness :
    Reachable (add_row (add_row initialModel)) ∧
    (∃ m', remove_rows? (add_row (add_row initialModel)) [1] = some m') ∧
    (∃ m', move_row? (add_row (add_row initialModel)) 0 1 = some m') ∧
    (remove_rows (add_row (add_row initialModel)) [5]).datasets =
      (add_row (add_row initialModel)).datasets ∧
    move_row (add_row (add_row initialModel)) 3 7 =
      add_row (add_row initialModel) := by
  have hr : Reachable (add_row (add_row initialModel)) :=
    Reachable.addRow (Reachable.addRow Reachable.init)
  have h := C9_no_raise (add_row (add_row initialModel)) hr
  exact ⟨hr, h.1 [1], h.2.1 0 1,
    h.2.2.1 [5] (by decide),
    h.2.2.2.1 3 7 (Or.inl (by decide))⟩

/-- C10: the bulk repaint `update_all_colors` also overwrites the
store's default color setting `plot_color_hex`, so every series built
afterwards by `replace_from_columns` (`update_data_from_file`) carries
the repaint color as its per-point colors, per-segment colors and
`primary_color`, and the default series a later `add_row` creates on an
empty store uses it as well. -/
theorem C10_repaint_overwrites_default (m : PlottingModel)
    (c x_col : String) (x_data : List Val)
    (yCols : List (String × List Val)) :
    (update_all_colors m c).plot_color_hex = c ∧
    (∀ ds ∈ (update_data_from_file (update_all_colors m c) x_col x_data
        yCols).datasets,
      ds.primary_color = c ∧
      ds.colors = List.replicate ds.x.length c ∧
      ds.line_segment_colors = List.replicate (ds.x.length - 1) c) ∧
    (m.datasets = [] → (add_row (update_all_colors m c)).datasets =
      [{ name := "數據1", x := [Val.num 0], y := [Val.num 0],
         colors := [c], primary_color := c,
         line_segment_colors := [] }]) := by
  refine ⟨rfl, ?_, ?_⟩
  · intro ds hds
    by_cases hg : x_col = "" ∨ yCols = []
    · rw [fromFile_empty _ _ _ _ hg] at hds
      simp at hds
    · simp only [update_data_from_file, if_neg hg, List.mem_map] at hds
      obtain ⟨yc, hyc, rfl⟩ := hds
      exact ⟨rfl, rfl, rfl⟩
  · intro he
    simp [add_row, update_all_colors, he]

/-- Witness for C10: repaint with "#00ff00", then reload columns and
(from an empty store) add a row. -/
theorem C10_witness :
    (update_all_colors initialModel "#00ff00").plot_color_hex = "#00ff00" ∧
    (∀ ds ∈ (update_data_from_file (update_all_colors initialModel "#00ff00")
        "X" [Val.num 1, Val.num 2] [("S1", [Val.num 3, Val.num 4])]).datasets,
      ds.primary_color = "#00ff00" ∧
      ds.colors = List.replicate ds.x.length "#00ff00" ∧
      ds.line_segment_colors = List.replicate (ds.x.length - 1) "#00ff00") ∧
    (add_row (update_all_colors initialModel "#00ff00")).datasets =
      [{ name := "數據1", x := [Val.num 0], y := [Val.num 0],
         colors := ["#00ff00"], primary_color := "#00ff00",
         line_segment_colors := [] }] := by
  have h := C10_repaint_overwrites_default initialModel "#00ff00" "X"
    [Val.num 1, Val.num 2] [("S1", [Val.num 3, Val.num 4])]
  exact ⟨h.1, h.2.1, h.2.2 (by decide)⟩

/-- C2 counterexample: `PlottingModel.update_data_from_table` (abc.py)
does *not* preserve `primary_color` / `line_segment_colors` from the
prior store state.  On the reachable store `pickedColorStore` (file
load, then the user picks `"#222222"` for point 0), projecting the
store's own series into the grid and calling `update_data_from_table`
on that very snapshot — series columns unchanged in index — changes
`primary_color` from `"#1f77b4"` to `"#222222"` (the first entry of the
snapshot color column) and `line_segment_colors` from `["#1f77b4"]` to
`["#222222"]`. -/
theorem C2_counterexample :
    Reachable pickedColorStore ∧
    pickedColorStore.datasets.map (fun ds => ds.primary_color) =
      ["#1f77b4"] ∧
    pickedColorStore.datasets.map (fun ds => ds.line_segment_colors) =
      [["#1f77b4"]] ∧
    (projectToTable pickedColorStore.datasets).y_cols.map
      (fun yc => yc.name) = ["A"] ∧
    (update_data_from_table pickedColorStore
      (projectToTable pickedColorStore.datasets)).datasets.map
      (fun ds => ds.primary_color) = ["#222222"] ∧
    (update_data_from_table pickedColorStore
      (projectToTable pickedColorStore.datasets)).datasets.map
      (fun ds => ds.line_segment_colors) = [["#222222"]] :=
  ⟨Reachable.pointColor 0 0 "#222222" ArtistType.scatter
     (Reachable.fromFile "X" [Val.num 0, Val.num 1]
       [("A", [Val.num 5, Val.num 6])] Reachable.init (by decide)),
   by decide, by decide, by decide, by decide, by decide⟩

/-- C2 (amended): in `abc.py`, `update_data_from_table` does not
consult the prior series at all — the rebuilt datasets depend only on
the snapshot and the default `plot_color_hex` (so with an empty
snapshot color column the rebuilt series falls back to the default
color and empty segment list); the claimed preservation of
`primary_color` and `line_segment_colors` from the prior state holds
only in the `v3.4.2` `PlottingApp` variant, which copies both from the
prior series at the same column index and, for a series whose index is
new, falls back to the default `line_color_hex` with *no*
`line_segment_colors` key at all (modelled as `none`). -/
theorem C2_prior_state (m1 m2 : PlottingModel) (t : TableData)
    (st : V342.AppState) (i : Nat) :
    (m1.plot_color_hex = m2.plot_color_hex →
      (update_data_from_table m1 t).datasets =
        (update_data_from_table m2 t).datasets) ∧
    (∀ yc ds, t.y_cols.get? i = some yc → yc.colors = [] →
      (update_data_from_table m1 t).datasets.get? i = some ds →
      ds.primary_color = m1.plot_color_hex ∧
      ds.line_segment_colors = []) ∧
    (∀ old new_, st.datasets.get? i = some old →
      (V342.update_data_from_table st t).datasets.get? i = some new_ →
      new_.primary_color = old.primary_color ∧
      new_.line_segment_colors = old.line_segment_colors) ∧
    (∀ new_, st.datasets.get? i = none →
      (V342.update_data_from_table st t).datasets.get? i = some new_ →
      new_.primary_color = st.line_color_hex ∧
      new_.line_segment_colors = none) := by
  refine ⟨?_, ?_, ?_, ?_⟩
  · intro h
    simp [update_data_from_table, h]
  · intro yc ds hyc hce hget
    simp only [update_data_from_table] at hget
    rw [List.get?_map, hyc] at hget
    obtain rfl : _ = ds := Option.some.inj hget
    constructor
    · show (match yc.colors with
        | [] => m1.plot_color_hex
        | c :: _ => c) = m1.plot_color_hex
      rw [hce]
    · show (match yc.colors with
        | [] => ([] : List String)
        | c :: _ => List.replicate (t.x.length - 1) c) = []
      rw [hce]
  · intro old new_ hold hget
    have hre : (V342.update_data_from_table st t).datasets.get? i =
        (t.y_cols.get? i).map (V342.buildCol st t i) := by
      show (V342.rebuildFromTable st t 0 t.y_cols).get? i = _
      rw [rebuild_get? st t t.y_cols 0 i, Nat.zero_add]
    rw [hre] at hget
    cases hyc : t.y_cols.get? i with
    | none => rw [hyc] at hget; simp at hget
    | some yc =>
      rw [hyc] at hget
      obtain rfl : _ = new_ := Option.some.inj hget
      show (V342.buildCol st t i yc).primary_color = old.primary_color ∧
        (V342.buildCol st t i yc).line_segment_colors =
          old.line_segment_colors
      unfold V342.buildCol
      rw [hold]
      exact ⟨rfl, rfl⟩
  · intro new_ hnone hget
    have hre : (V342.update_data_from_table st t).datasets.get? i =
        (t.y_cols.get? i).map (V342.buildCol st t i) := by
      show (V342.rebuildFromTable st t 0 t.y_cols).get? i = _
      rw [rebuild_get? st t t.y_cols 0 i, Nat.zero_add]
    rw [hre] at hget
    cases hyc : t.y_cols.get? i with
    | none => rw [hyc] at hget; simp at hget
    | some yc =>
      rw [hyc] at hget
      obtain rfl : _ = new_ := Option.some.inj hget
      show (V342.buildCol st t i yc).primary_color = st.line_color_hex ∧
        (V342.buildCol st t i yc).line_segment_colors = none
      unfold V342.buildCol
      rw [hnone]
      exact ⟨rfl, rfl⟩

/-- Witness for C2's amended statement on `v342State` and `v342Snap`:
the existing series (index 0) keeps its custom `primary_color`
`"#123456"` and `line_segment_colors` `["#654321"]` through the v3.4.2
rebuild, while the new series (index 1) gets the default line color and
no `line_segment_colors` key; and the abc.py rebuild of the same
snapshot is identical for two models that share only the default
color. -/
theorem C2_witness :
    ((update_data_from_table pickedColorStore v342Snap).datasets =
      (update_data_from_table initialModel v342Snap).datasets) ∧
    (∃ new_, (V342.update_data_from_table v342State v342Snap).datasets.get? 0 =
      some new_ ∧ new_.primary_color = "#123456" ∧
      new_.line_segment_colors = some ["#654321"]) ∧
    (∃ new_, (V342.update_data_from_table v342State v342Snap).datasets.get? 1 =
      some new_ ∧ new_.primary_color = "#1f77b4" ∧
      new_.line_segment_colors = none) := by
  refine ⟨(C2_prior_state pickedColorStore initialModel v342Snap v342State
    0).1 (by decide), ?_, ?_⟩
  · obtain ⟨hp, hl⟩ := (C2_prior_state pickedColorStore initialModel v342Snap
      v342State 0).2.2.1 v342Series
      (V342.buildCol v342State v342Snap 0
        { name := "A", y := [Val.num 7, Val.num 8],
          colors := ["#ff7f0e", "#ff7f0e"] })
      (by decide) (by decide)
    exact ⟨_, by decide, hp.trans (by decide), hl.trans (by decide)⟩
  · obtain ⟨hp, hl⟩ := (C2_prior_state pickedColorStore initialModel v342Snap
      v342State 1).2.2.2
      (V342.buildCol v342State v342Snap 1
        { name := "B", y := [Val.num 1, Val.num 2],
          colors := ["#ff7f0e", "#ff7f0e"] })
      (by decide) (by decide)
    exact ⟨_, by decide, hp.trans (by decide), hl⟩
